import Mathlib

/-!
Verification of the WebSocket protocol engine (`src/WebSocket.cpp`).

The engine is shallow-embedded: bytes are natural numbers reduced mod 256
wherever the C++ code stores into `uint8_t`; the mutable `WebSocket::Impl`
object becomes a record threaded through pure functions; calls on the
transport (`SendData`, `Break`) become an explicit output list.  External
primitives that the engine merely consumes (the UTF-8 validator, the
cryptographic RNG, SHA-1 and Base64) are passed in as function parameters,
exactly at the interface the C++ code uses them.
-/

namespace WebSockets

/-- UTF-8 bytes of a C++ string literal (used for close reasons). -/
def strBytes (s : String) : List Nat := s.toUTF8.toList.map (fun b => b.toNat)

/-- `CURRENTLY_SUPPORTED_WEBSOCKET_VERSION` from the source. -/
def CURRENTLY_SUPPORTED_WEBSOCKET_VERSION : String := "13"

/-- `REQUIRED_WEBSOCKET_KEY_LENGTH` from the source. -/
def REQUIRED_WEBSOCKET_KEY_LENGTH : Nat := 16

/-- `WEBSOCKET_KEY_SALT` from the source. -/
def WEBSOCKET_KEY_SALT : String := "258EAFA5-E914-47DA-95CA-C5AB0DC85B11"

/-- `FIN` bit of the first frame octet. -/
def FIN : Nat := 0x80

/-- `MASK` bit of the second frame octet. -/
def MASK : Nat := 0x80

/-- Opcode of a continuation frame. -/
def OPCODE_CONTINUATION : Nat := 0x00

/-- Opcode of a text frame. -/
def OPCODE_TEXT : Nat := 0x01

/-- Opcode of a binary frame. -/
def OPCODE_BINARY : Nat := 0x02

/-- Opcode of a close frame. -/
def OPCODE_CLOSE : Nat := 0x08

/-- Opcode of a ping frame. -/
def OPCODE_PING : Nat := 0x09

/-- Opcode of a pong frame. -/
def OPCODE_PONG : Nat := 0x0A

/-- `MAX_CONTROL_FRAME_DATA_LENGTH` from the source. -/
def MAX_CONTROL_FRAME_DATA_LENGTH : Nat := 125

/-- `WebSocket::Role`. -/
inductive Role
  | Client
  | Server
  deriving DecidableEq, Repr

/-- `FragmentedMessageType` from the source. -/
inductive FragmentedMessageType
  | None
  | Text
  | Binary
  deriving DecidableEq, Repr

/-- `Event::Type` from the source. -/
inductive EventType
  | Unknown
  | Text
  | Binary
  | Ping
  | Pong
  | Close
  deriving DecidableEq, Repr

/-- `Event` from the source: the C++ `closeCode` field is uninitialized for
non-close events; the model sets it to 0 there (it is only read for close
events). -/
structure Event where
  type : EventType
  content : List Nat
  closeCode : Nat
  deriving DecidableEq, Repr

/-- An observable call made on the transport connection. -/
inductive Output
  | sendData (frame : List Nat)
  | breakTransport (clean : Bool)
  deriving DecidableEq, Repr

/-- `WebSocket::Configuration` (the part the engine reads). -/
structure Configuration where
  maxFrameSize : Nat
  deriving DecidableEq, Repr

/-- The engine state: the fields of `WebSocket::Impl` that the protocol logic
reads and writes.  `connected` models `connection != nullptr`. -/
@[ext]
structure Impl where
  configuration : Configuration
  eventQueue : List Event
  connected : Bool
  role : Role
  closeSent : Bool
  closeReceived : Bool
  sending : FragmentedMessageType
  receiving : FragmentedMessageType
  frameReassemblyBuffer : List Nat
  messageReassemblyBuffer : List Nat
  deriving DecidableEq, Repr

/-- The i-th byte produced by the masking-key RNG (`rng.Generate` fills
`uint8_t` cells, hence the reduction mod 256). -/
def keyByte (mk : Nat → Nat) (i : Nat) : Nat := mk i % 256

/-- XOR-masking of a payload with the 4-byte key, as in the masking loop of
`SendFrame`: byte `i` becomes `payload[i] ^ key[i % 4]`, stored into a byte. -/
def maskPayload (mk : Nat → Nat) (payload : List Nat) : List Nat :=
  (List.range payload.length).map fun i => (payload.getD i 0 ^^^ keyByte mk (i % 4)) % 256

/-- The length field of an outbound frame, as built by `SendFrame`: the mask
flag (0x80 or 0) is added into the first length octet, and the extended
big-endian length bytes follow for the 16- and 64-bit forms. -/
def lengthField (len : Nat) (maskFlag : Nat) : List Nat :=
  if len < 126 then
    [(len + maskFlag) % 256]
  else if len < 65536 then
    [(0x7E + maskFlag) % 256, (len >>> 8) % 256, len % 256]
  else
    [(0x7F + maskFlag) % 256,
     (len >>> 56) % 256, (len >>> 48) % 256, (len >>> 40) % 256, (len >>> 32) % 256,
     (len >>> 24) % 256, (len >>> 16) % 256, (len >>> 8) % 256, len % 256]

/-- `WebSocket::Impl::SendFrame`, as the byte sequence handed to
`connection->SendData`.  `mk` models the masking-key RNG (used only when the
role is Client). -/
def SendFrame (role : Role) (mk : Nat → Nat) (fin : Bool) (opcode : Nat)
    (payload : List Nat) : List Nat :=
  let b0 := ((if fin then FIN else 0) + opcode) % 256
  let maskFlag := if role = Role.Client then MASK else 0
  b0 :: lengthField payload.length maskFlag ++
    (if maskFlag = 0 then payload
     else [keyByte mk 0, keyByte mk 1, keyByte mk 2, keyByte mk 3] ++ maskPayload mk payload)

/-- `WebSocket::Impl::OnClose`: records that a close frame (or a failure) was
observed, queues the Close event, and breaks the transport (with
`clean = false`) when a close frame had already been sent. -/
def Impl.OnClose (s : Impl) (code : Nat) (reason : List Nat) : Impl × List Output :=
  let closeSentEarlier := s.closeSent
  let s' := { s with
    closeReceived := true,
    eventQueue := s.eventQueue ++ [{ type := EventType.Close, content := reason, closeCode := code }] }
  if closeSentEarlier then (s', [Output.breakTransport false]) else (s', [])

/-- `WebSocket::Impl::Close`: sends a close frame (unless the code is 1006,
or a close was already sent), with an empty payload when the code is 1005;
on the `fail` path it reports the close immediately; otherwise, if a close
was already received, it breaks the transport with `clean = true`. -/
def Impl.Close (mk : Nat → Nat) (s : Impl) (code : Nat) (reason : List Nat)
    (fail : Bool) : Impl × List Output :=
  if s.closeSent then (s, [])
  else
    let s := { s with closeSent := true }
    if code = 1006 then
      s.OnClose code reason
    else
      let data := if code ≠ 1005 then (code >>> 8) % 256 :: code % 256 :: reason else []
      let frame := SendFrame s.role mk true OPCODE_CLOSE data
      if fail then
        let r := s.OnClose code reason
        (r.1, Output.sendData frame :: r.2)
      else if s.closeReceived then
        (s, [Output.sendData frame, Output.breakTransport true])
      else
        (s, [Output.sendData frame])

/-- `WebSocket::Impl::OnTextMessage`: validate the complete text message as
UTF-8 (`v` models `Utf8::Utf8::IsValidEncoding`); queue a Text event on
success, otherwise fail the connection with 1007. -/
def Impl.OnTextMessage (v : List Nat → Bool) (mk : Nat → Nat) (s : Impl)
    (message : List Nat) : Impl × List Output :=
  if v message then
    ({ s with eventQueue := s.eventQueue ++
        [{ type := EventType.Text, content := message, closeCode := 0 }] }, [])
  else
    s.Close mk 1007 (strBytes "invalid UTF-8 encoding in text message") true

/-- `WebSocket::Impl::OnBinaryMessage`: queue a Binary event. -/
def Impl.OnBinaryMessage (s : Impl) (message : List Nat) : Impl × List Output :=
  ({ s with eventQueue := s.eventQueue ++
      [{ type := EventType.Binary, content := message, closeCode := 0 }] }, [])

/-- The opcode dispatch of `WebSocket::Impl::ReceiveFrame` (the `switch` on
the decoded opcode), applied to the already unmasked payload `data`. -/
def Impl.HandleFrame (v : List Nat → Bool) (mk : Nat → Nat) (s : Impl)
    (fin : Bool) (opcode : Nat) (data : List Nat) : Impl × List Output :=
  if opcode = OPCODE_CONTINUATION then
    let mrb := s.messageReassemblyBuffer ++ data
    let s := { s with messageReassemblyBuffer := mrb }
    let r :=
      match s.receiving with
      | FragmentedMessageType.Text =>
          if fin then s.OnTextMessage v mk mrb else (s, [])
      | FragmentedMessageType.Binary =>
          if fin then s.OnBinaryMessage mrb else (s, [])
      | FragmentedMessageType.None =>
          Impl.Close mk { s with messageReassemblyBuffer := [] } 1002
            (strBytes "unexpected continuation frame") true
    if fin then
      ({ r.1 with receiving := FragmentedMessageType.None, messageReassemblyBuffer := [] }, r.2)
    else r
  else if opcode = OPCODE_TEXT then
    if s.receiving = FragmentedMessageType.None then
      if fin then
        s.OnTextMessage v mk data
      else
        ({ s with receiving := FragmentedMessageType.Text, messageReassemblyBuffer := data }, [])
    else
      Impl.Close mk s 1002 (strBytes "last message incomplete") true
  else if opcode = OPCODE_BINARY then
    if s.receiving = FragmentedMessageType.None then
      if fin then
        s.OnBinaryMessage data
      else
        ({ s with receiving := FragmentedMessageType.Binary, messageReassemblyBuffer := data }, [])
    else
      Impl.Close mk s 1002 (strBytes "last message incomplete") true
  else if opcode = OPCODE_CLOSE then
    if data.length ≥ 2 then
      let code := ((data.getD 0 0 <<< 8) &&& 0xFF00) + (data.getD 1 0 &&& 0x00FF)
      let reason := data.drop 2
      if v reason then
        s.OnClose code reason
      else
        Impl.Close mk s 1007 (strBytes "invalid UTF-8 encoding in close reason") true
    else
      s.OnClose 1005 []
  else if opcode = OPCODE_PING then
    ({ s with eventQueue := s.eventQueue ++
        [{ type := EventType.Ping, content := data, closeCode := 0 }] },
     [Output.sendData (SendFrame s.role mk true OPCODE_PONG data)])
  else if opcode = OPCODE_PONG then
    ({ s with eventQueue := s.eventQueue ++
        [{ type := EventType.Pong, content := data, closeCode := 0 }] }, [])
  else
    Impl.Close mk s 1002 (strBytes "unknown opcode") true

/-- The server-side unmasking loop of `WebSocket::Impl::ReceiveFrame`:
`data[i] = buffer[headerLength + i] ^ buffer[headerLength - 4 + i % 4]`. -/
def serverUnmask (buf : List Nat) (headerLength payloadLength : Nat) : List Nat :=
  (List.range payloadLength).map fun i =>
    (buf.getD (headerLength + i) 0 ^^^ buf.getD (headerLength - 4 + i % 4) 0) % 256

/-- `WebSocket::Impl::ReceiveFrame`: header validation (reserved bits,
masking direction), payload extraction (unmasking for the Server role), and
the opcode dispatch. -/
def Impl.ReceiveFrame (v : List Nat → Bool) (mk : Nat → Nat) (s : Impl)
    (headerLength payloadLength : Nat) : Impl × List Output :=
  if s.closeReceived then (s, [])
  else
    let buf := s.frameReassemblyBuffer
    let fin := buf.getD 0 0 &&& FIN ≠ 0
    let reservedBits := (buf.getD 0 0 >>> 4) &&& 0x07
    if reservedBits ≠ 0 then
      Impl.Close mk s 1002 (strBytes "reserved bits set") true
    else
      let maskBit := buf.getD 1 0 &&& MASK ≠ 0
      if maskBit ∧ s.role = Role.Client then
        Impl.Close mk s 1002 (strBytes "masked frame") true
      else if ¬maskBit ∧ s.role = Role.Server then
        Impl.Close mk s 1002 (strBytes "unmasked frame") true
      else
        let opcode := buf.getD 0 0 &&& 0x0F
        let data :=
          if s.role = Role.Server then
            serverUnmask buf headerLength payloadLength
          else
            (buf.drop headerLength).take payloadLength
        s.HandleFrame v mk fin opcode data

/-- The frame-boundary computation of `WebSocket::Impl::ReceiveData`: given
the buffered bytes, either `none` (not enough bytes yet to delimit a frame
header) or `some (headerLength, payloadLength)` computed from the first
length octet, the extended big-endian length bytes, and the mask bit. -/
def headerInfo (buf : List Nat) : Option (Nat × Nat) :=
  if buf.length < 2 then none
  else
    let lengthFirstOctet := buf.getD 1 0 &&& 0x7F
    let base :=
      if lengthFirstOctet = 0x7E then
        if buf.length < 4 then none
        else some (4, (buf.getD 2 0 <<< 8) + buf.getD 3 0)
      else if lengthFirstOctet = 0x7F then
        if buf.length < 10 then none
        else some (10,
          (buf.getD 2 0 <<< 56) + (buf.getD 3 0 <<< 48) + (buf.getD 4 0 <<< 40) +
          (buf.getD 5 0 <<< 32) + (buf.getD 6 0 <<< 24) + (buf.getD 7 0 <<< 16) +
          (buf.getD 8 0 <<< 8) + buf.getD 9 0)
      else some (2, lengthFirstOctet)
    match base with
    | none => none
    | some hp =>
        some (if buf.getD 1 0 &&& MASK ≠ 0 then hp.1 + 4 else hp.1, hp.2)

/-- The frame-decoding loop of `WebSocket::Impl::ReceiveData`: while a whole
frame is buffered, hand it to `ReceiveFrame` and consume its bytes.  `fuel`
bounds the number of iterations; every iteration consumes at least two
buffered bytes, so a fuel of the buffer length always reaches the loop's
fixed point. -/
def Impl.ReceiveDataLoop (v : List Nat → Bool) (mk : Nat → Nat) :
    Nat → Impl → Impl × List Output
  | 0, s => (s, [])
  | fuel + 1, s =>
    match headerInfo s.frameReassemblyBuffer with
    | none => (s, [])
    | some hp =>
      if s.frameReassemblyBuffer.length < hp.1 + hp.2 then (s, [])
      else
        let r1 := s.ReceiveFrame v mk hp.1 hp.2
        let s2 := { r1.1 with
          frameReassemblyBuffer := r1.1.frameReassemblyBuffer.drop (hp.1 + hp.2) }
        let r2 := Impl.ReceiveDataLoop v mk fuel s2
        (r2.1, r1.2 ++ r2.2)

/-- `WebSocket::Impl::ReceiveData`: no-op without a connection; close with
1009 when the buffered bytes plus the new chunk would exceed a positive
`maxFrameSize`; otherwise append the chunk and decode whole frames. -/
def Impl.ReceiveData (v : List Nat → Bool) (mk : Nat → Nat) (s : Impl)
    (data : List Nat) : Impl × List Output :=
  if ¬s.connected then (s, [])
  else if s.configuration.maxFrameSize > 0 ∧
      s.frameReassemblyBuffer.length + data.length > s.configuration.maxFrameSize then
    Impl.Close mk s 1009 (strBytes "frame too large") true
  else
    let s := { s with frameReassemblyBuffer := s.frameReassemblyBuffer ++ data }
    Impl.ReceiveDataLoop v mk s.frameReassemblyBuffer.length s

/-- The external handshake primitives consumed by the engine: Base64
encode/decode and SHA-1 (as used through `Hash::StringToBytes<Hash::Sha1>`). -/
structure HandshakePrimitives where
  base64Encode : List Nat → String
  base64Decode : String → List Nat
  sha1 : String → List Nat

/-- `ComputeKeyAnswer` from the source:
`Base64::Encode(Sha1(key + WEBSOCKET_KEY_SALT))`. -/
def ComputeKeyAnswer (p : HandshakePrimitives) (key : String) : String :=
  p.base64Encode (p.sha1 (key ++ WEBSOCKET_KEY_SALT))

/-- The `Sec-WebSocket-Key` value stored by `WebSocket::StartOpenAsClient`:
the Base64 encoding of the 16 random nonce bytes. -/
def StartOpenAsClientKey (p : HandshakePrimitives) (nonce : List Nat) : String :=
  p.base64Encode nonce

/-- The fields of the HTTP response that `WebSocket::FinishOpenAsClient`
reads.  `upgradeValueLower` models `ToLower` applied to the `Upgrade`
header value. -/
structure ClientHandshakeResponse where
  statusCode : Nat
  connectionHasUpgradeToken : Bool
  upgradeValueLower : String
  secWebSocketAccept : String
  secWebSocketExtensionsTokens : List String
  secWebSocketProtocolTokens : List String

/-- The validation chain of `WebSocket::FinishOpenAsClient` (`key` is the
stored client key): true exactly when the handshake is accepted. -/
def FinishOpenAsClientAccepts (p : HandshakePrimitives) (key : String)
    (r : ClientHandshakeResponse) : Bool :=
  r.statusCode == 101 &&
  r.connectionHasUpgradeToken &&
  (r.upgradeValueLower == "websocket") &&
  (r.secWebSocketAccept == ComputeKeyAnswer p key) &&
  r.secWebSocketExtensionsTokens.isEmpty &&
  r.secWebSocketProtocolTokens.isEmpty

/-- The fields of the HTTP request that `WebSocket::OpenAsServer` reads. -/
structure ServerHandshakeRequest where
  method : String
  connectionHasUpgradeToken : Bool
  upgradeValueLower : String
  secWebSocketVersion : String
  secWebSocketKey : String

/-- The validation chain of `WebSocket::OpenAsServer`: `none` when the
handshake is rejected, otherwise the `Sec-WebSocket-Accept` value the server
puts in its 101 response. -/
def OpenAsServerAccept (p : HandshakePrimitives) (req : ServerHandshakeRequest)
    (trailer : String) : Option String :=
  if req.method ≠ "GET" then none
  else if ¬req.connectionHasUpgradeToken then none
  else if req.upgradeValueLower ≠ "websocket" then none
  else if req.secWebSocketVersion ≠ CURRENTLY_SUPPORTED_WEBSOCKET_VERSION then none
  else if trailer ≠ "" then none
  else if (p.base64Decode req.secWebSocketKey).length ≠ REQUIRED_WEBSOCKET_KEY_LENGTH then none
  else some (ComputeKeyAnswer p req.secWebSocketKey)

/-- A concrete engine state used to instantiate the theorems: Server role on
a fresh connection with an unlimited frame size. -/
def exampleState : Impl :=
  { configuration := { maxFrameSize := 0 }, eventQueue := [], connected := true,
    role := Role.Server, closeSent := false, closeReceived := false,
    sending := FragmentedMessageType.None, receiving := FragmentedMessageType.None,
    frameReassemblyBuffer := [], messageReassemblyBuffer := [] }

/-- A UTF-8 validator instance that accepts everything, for concrete
instantiations. -/
def acceptAllUtf8 : List Nat → Bool := fun _ => true

/-- A UTF-8 validator instance that rejects everything, for concrete
instantiations. -/
def rejectAllUtf8 : List Nat → Bool := fun _ => false

/-- An RNG instance producing all zeros, for concrete instantiations. -/
def zeroRng : Nat → Nat := fun _ => 0

/-- An RNG instance cycling through the masking key 37 FA 21 3D, for
concrete instantiations. -/
def exampleRng : Nat → Nat := fun i => [0x37, 0xFA, 0x21, 0x3D].getD (i % 4) 0

/-- Concrete handshake primitives for instantiations: an injective-looking
encoder and a length-16 decoder, standing in for real Base64 and SHA-1. -/
def examplePrimitives : HandshakePrimitives :=
  { base64Encode := fun bs => toString bs,
    base64Decode := fun _ => List.replicate 16 0,
    sha1 := fun s => [s.length] }

/-- A concrete upgrade request carrying the example client key, for
instantiations. -/
def exampleRequest : ServerHandshakeRequest :=
  { method := "GET", connectionHasUpgradeToken := true, upgradeValueLower := "websocket",
    secWebSocketVersion := "13",
    secWebSocketKey := StartOpenAsClientKey examplePrimitives [1, 2, 3] }

/-- A concrete 101 response carrying the accept value computed by the server
from the example request, for instantiations. -/
def exampleResponse : ClientHandshakeResponse :=
  { statusCode := 101, connectionHasUpgradeToken := true, upgradeValueLower := "websocket",
    secWebSocketAccept := ComputeKeyAnswer examplePrimitives
      (StartOpenAsClientKey examplePrimitives [1, 2, 3]),
    secWebSocketExtensionsTokens := [], secWebSocketProtocolTokens := [] }

set_option maxRecDepth 10000 in
/-- Bytewise fact used for the MASK bit: for byte values, `n &&& 0x80` is
0x80 exactly when bit 7 is set, i.e. when `128 ≤ n`. -/
theorem byteAnd128 : ∀ n, n < 256 → n &&& 128 = if 128 ≤ n then 128 else 0 := by decide

set_option maxRecDepth 10000 in
/-- Bytewise fact used for the 7-bit length field: `n &&& 0x7F = n % 128`. -/
theorem byteAnd127 : ∀ n, n < 256 → n &&& 127 = n % 128 := by decide

set_option maxRecDepth 10000 in
/-- Bytewise fact: `n &&& 0xFF = n` for byte values. -/
theorem byteAnd255 : ∀ n, n < 256 → n &&& 255 = n := by decide

set_option maxRecDepth 100000 in
/-- Bytewise fact for the close-code decoding: `(n <<< 8) &&& 0xFF00 = 256 * n`
for byte values. -/
theorem byteShift8And : ∀ n, n < 256 → (n <<< 8) &&& 0xFF00 = 256 * n := by decide

/-- Indexing past an appended prefix. -/
theorem getD_append_len (xs ys : List Nat) (i d : Nat) :
    (xs ++ ys).getD (xs.length + i) d = ys.getD i d := by
  rw [List.getD_append_right xs ys d _ (Nat.le_add_right _ _), Nat.add_sub_cancel_left]

/-- Indexing a tabulated list. -/
theorem getD_range_map (n i : Nat) (f : Nat → Nat) (h : i < n) :
    ((List.range n).map f).getD i 0 = f i := by
  rw [List.getD_eq_getElem _ _ (by simpa using h)]
  simp

/-- The state after `OnClose`: `closeReceived` is set and the Close event is
queued, independently of which branch broke the transport. -/
theorem OnClose_fst (s : Impl) (code : Nat) (reason : List Nat) :
    (Impl.OnClose s code reason).1 =
      { s with closeReceived := true,
               eventQueue := s.eventQueue ++
                 [{ type := EventType.Close, content := reason, closeCode := code }] } := by
  simp only [Impl.OnClose]
  split <;> rfl

/-- `Close` never touches the fragmentation state or the byte buffers, and it
queues at most the one Close event. -/
theorem Close_fst_fields (mk : Nat → Nat) (s : Impl) (code : Nat)
    (reason : List Nat) (fail : Bool) :
    ((Impl.Close mk s code reason fail).1).receiving = s.receiving
    ∧ ((Impl.Close mk s code reason fail).1).messageReassemblyBuffer = s.messageReassemblyBuffer
    ∧ ((Impl.Close mk s code reason fail).1).frameReassemblyBuffer = s.frameReassemblyBuffer
    ∧ (((Impl.Close mk s code reason fail).1).eventQueue = s.eventQueue
       ∨ ((Impl.Close mk s code reason fail).1).eventQueue =
           s.eventQueue ++ [{ type := EventType.Close, content := reason, closeCode := code }]) := by
  unfold Impl.Close
  split_ifs <;> simp [OnClose_fst] <;> split_ifs <;> simp

/-- C10: received control frames are not validated against the control-frame
rules: for every received Ping frame, for every FIN bit (including FIN = 0)
and every payload (including payloads longer than 125 bytes), the engine
sends a FIN = 1 Pong frame with the identical payload and queues a Ping
event; no protocol-error close occurs. -/
theorem ping_frames_not_validated (v : List Nat → Bool) (mk : Nat → Nat)
    (s : Impl) (fin : Bool) (data : List Nat) :
    Impl.HandleFrame v mk s fin OPCODE_PING data =
      ({ s with eventQueue := s.eventQueue ++
          [{ type := EventType.Ping, content := data, closeCode := 0 }] },
       [Output.sendData (SendFrame s.role mk true OPCODE_PONG data)]) := by
  simp [Impl.HandleFrame, OPCODE_PING, OPCODE_CONTINUATION, OPCODE_TEXT, OPCODE_BINARY,
    OPCODE_CLOSE]

/-- C3: the message assembler's error rows.  While a Text or Binary message
is in progress (`receiving ≠ None`), a new Text or Binary frame, with any
FIN bit, fails the connection with 1002 "last message incomplete"; and with
no message in progress (`receiving = None`) a Continuation frame, with any
FIN bit, fails the connection with 1002 "unexpected continuation frame"
(the partially-assembled buffer being cleared first, as in the source). -/
theorem message_assembler_error_rows (v : List Nat → Bool) (mk : Nat → Nat)
    (s : Impl) (fin : Bool) (data : List Nat) :
    (s.receiving ≠ FragmentedMessageType.None →
      Impl.HandleFrame v mk s fin OPCODE_TEXT data =
        Impl.Close mk s 1002 (strBytes "last message incomplete") true
      ∧ Impl.HandleFrame v mk s fin OPCODE_BINARY data =
        Impl.Close mk s 1002 (strBytes "last message incomplete") true)
    ∧ (s.receiving = FragmentedMessageType.None →
      Impl.HandleFrame v mk s fin OPCODE_CONTINUATION data =
        Impl.Close mk { s with messageReassemblyBuffer := [] } 1002
          (strBytes "unexpected continuation frame") true) := by
  constructor
  · intro h
    constructor <;>
      simp [Impl.HandleFrame, OPCODE_TEXT, OPCODE_BINARY, OPCODE_CONTINUATION, h]
  · intro h
    obtain ⟨h1, h2, -, -⟩ := Close_fst_fields mk { s with messageReassemblyBuffer := ([] : List Nat) }
      1002 (strBytes "unexpected continuation frame") true
    simp only [Impl.HandleFrame, OPCODE_CONTINUATION, if_true, h]
    cases fin
    · simp
    · simp only [if_true]
      rw [h] at h1 h2
      refine Prod.ext ?_ rfl
      apply Impl.ext <;> simp_all

/-- C2: close-frame payload semantics.  An empty close payload surfaces a
Close event with code 1005 and empty reason; a payload of at least two bytes
surfaces the big-endian 16-bit code of bytes 0..2 with the remaining bytes
as reason; a reason that fails UTF-8 validation instead fails the
connection with 1007 "invalid UTF-8 encoding in close reason"; and a close
sent with code 1005 puts no payload in the close frame. -/
theorem close_payload_semantics (v : List Nat → Bool) (mk : Nat → Nat)
    (s : Impl) (fin : Bool) (data reason : List Nat) (fail : Bool) :
    (Impl.HandleFrame v mk s fin OPCODE_CLOSE []).1.eventQueue =
        s.eventQueue ++ [{ type := EventType.Close, content := [], closeCode := 1005 }]
    ∧ (data.length ≥ 2 → data.getD 0 0 < 256 → data.getD 1 0 < 256 →
        v (data.drop 2) = true →
        (Impl.HandleFrame v mk s fin OPCODE_CLOSE data).1.eventQueue =
          s.eventQueue ++ [{ type := EventType.Close, content := data.drop 2,
                             closeCode := 256 * data.getD 0 0 + data.getD 1 0 }])
    ∧ (data.length ≥ 2 → v (data.drop 2) = false →
        Impl.HandleFrame v mk s fin OPCODE_CLOSE data =
          Impl.Close mk s 1007 (strBytes "invalid UTF-8 encoding in close reason") true)
    ∧ (s.closeSent = false →
        (Impl.Close mk s 1005 reason fail).2.head? =
          some (Output.sendData (SendFrame s.role mk true OPCODE_CLOSE []))) := by
  refine ⟨?_, ?_, ?_, ?_⟩
  · simp [Impl.HandleFrame, OPCODE_CLOSE, OPCODE_CONTINUATION, OPCODE_TEXT, OPCODE_BINARY,
      OnClose_fst]
  · intro hlen hb0 hb1 hv
    have h0 := byteShift8And _ hb0
    have h1 := byteAnd255 _ hb1
    simp [Impl.HandleFrame, OPCODE_CLOSE, OPCODE_CONTINUATION, OPCODE_TEXT, OPCODE_BINARY,
      hlen, hv, OnClose_fst]
    simp at h0 h1
    omega
  · intro hlen hv
    simp [Impl.HandleFrame, OPCODE_CLOSE, OPCODE_CONTINUATION, OPCODE_TEXT, OPCODE_BINARY,
      hlen, hv]
  · intro hcs
    unfold Impl.Close
    simp only [hcs]
    split_ifs <;> simp_all

/-- C4: whenever a complete text message (single-frame, or reassembled via a
final continuation) is about to be emitted, the full assembled payload is
UTF-8 validated: a Text event is queued exactly when validation succeeds,
and on failure the engine fails the connection with 1007
"invalid UTF-8 encoding in text message" without emitting a Text event. -/
theorem text_message_utf8_validation (v : List Nat → Bool) (mk : Nat → Nat)
    (s : Impl) (msg data : List Nat) :
    (v msg = true → Impl.OnTextMessage v mk s msg =
        ({ s with eventQueue := s.eventQueue ++
            [{ type := EventType.Text, content := msg, closeCode := 0 }] }, []))
    ∧ (v msg = false → Impl.OnTextMessage v mk s msg =
        Impl.Close mk s 1007 (strBytes "invalid UTF-8 encoding in text message") true)
    ∧ (s.receiving = FragmentedMessageType.None →
        ((Impl.HandleFrame v mk s true OPCODE_TEXT data).1.eventQueue.drop
            s.eventQueue.length).any (fun e => e.type == EventType.Text) = v data)
    ∧ (s.receiving = FragmentedMessageType.Text →
        ((Impl.HandleFrame v mk s true OPCODE_CONTINUATION data).1.eventQueue.drop
            s.eventQueue.length).any (fun e => e.type == EventType.Text)
          = v (s.messageReassemblyBuffer ++ data)
        ∧ (v (s.messageReassemblyBuffer ++ data) = true →
            (Impl.HandleFrame v mk s true OPCODE_CONTINUATION data).1.eventQueue =
              s.eventQueue ++
                [{ type := EventType.Text, content := s.messageReassemblyBuffer ++ data, closeCode := 0 }])) := by
  refine ⟨?_, ?_, ?_, ?_⟩
  · intro hv
    simp [Impl.OnTextMessage, hv]
  · intro hv
    simp [Impl.OnTextMessage, hv]
  · intro h
    cases hv : v data
    · obtain ⟨-, -, -, hq⟩ := Close_fst_fields mk s 1007
        (strBytes "invalid UTF-8 encoding in text message") true
      simp only [Impl.HandleFrame, OPCODE_TEXT, OPCODE_CONTINUATION, h,
        Impl.OnTextMessage, hv]
      rcases hq with hq | hq <;>
        simp [hq, List.drop_length, List.drop_left]
    · simp [Impl.HandleFrame, OPCODE_TEXT, OPCODE_CONTINUATION, h,
        Impl.OnTextMessage, hv, List.drop_left]
  · intro h
    constructor
    · cases hv : v (s.messageReassemblyBuffer ++ data)
      · obtain ⟨-, -, -, hq⟩ := Close_fst_fields mk
          { s with messageReassemblyBuffer := s.messageReassemblyBuffer ++ data } 1007
          (strBytes "invalid UTF-8 encoding in text message") true
        rw [h] at hq
        simp only [Impl.HandleFrame, OPCODE_CONTINUATION, h, Impl.OnTextMessage, hv]
        rcases hq with hq | hq <;>
          simp [hq, List.drop_length, List.drop_left]
      · simp [Impl.HandleFrame, OPCODE_CONTINUATION, h, Impl.OnTextMessage, hv,
          List.drop_left]
    · intro hv
      simp [Impl.HandleFrame, OPCODE_CONTINUATION, h, Impl.OnTextMessage, hv]

/-- C5: the inbound frame-size cap.  When a chunk arrives, a positive
`maxFrameSize` is compared against the already-buffered byte count plus the
chunk size; on overflow the engine fails the connection with 1009
"frame too large" and the chunk is not appended to the buffer. -/
theorem frame_size_cap (v : List Nat → Bool) (mk : Nat → Nat) (s : Impl)
    (data : List Nat)
    (hconn : s.connected = true)
    (hcap : s.configuration.maxFrameSize > 0)
    (hover : s.frameReassemblyBuffer.length + data.length > s.configuration.maxFrameSize) :
    Impl.ReceiveData v mk s data = Impl.Close mk s 1009 (strBytes "frame too large") true
    ∧ (Impl.ReceiveData v mk s data).1.frameReassemblyBuffer = s.frameReassemblyBuffer := by
  have hfb := (Close_fst_fields mk s 1009 (strBytes "frame too large") true).2.2.1
  have he : Impl.ReceiveData v mk s data =
      Impl.Close mk s 1009 (strBytes "frame too large") true := by
    simp [Impl.ReceiveData, hconn, hcap, hover]
  exact ⟨he, by rw [he, hfb]⟩

/-- C6: outbound masking is applied exactly for the Client role.  A Client
frame consists of the first octet, the length field with the MASK flag added
into its first octet (making it a byte in 128..255, i.e. bit 7 set), the
4 masking-key bytes, and the XOR-masked payload; a Server frame has the
length field without the MASK flag (first octet below 128, bit 7 clear)
followed by the payload unmasked. -/
theorem outbound_masking_iff_client (mk : Nat → Nat) (fin : Bool) (opcode : Nat)
    (payload : List Nat) :
    SendFrame Role.Client mk fin opcode payload =
      ((if fin then FIN else 0) + opcode) % 256 ::
        lengthField payload.length MASK ++
        ([keyByte mk 0, keyByte mk 1, keyByte mk 2, keyByte mk 3] ++ maskPayload mk payload)
    ∧ SendFrame Role.Server mk fin opcode payload =
      ((if fin then FIN else 0) + opcode) % 256 :: lengthField payload.length 0 ++ payload
    ∧ 128 ≤ (lengthField payload.length MASK).getD 0 0
    ∧ (lengthField payload.length MASK).getD 0 0 < 256
    ∧ (lengthField payload.length 0).getD 0 0 < 128 := by
  refine ⟨?_, ?_, ?_, ?_, ?_⟩
  · simp [SendFrame, MASK]
  · simp [SendFrame, MASK]
  · unfold lengthField
    split_ifs <;> simp [MASK] <;> omega
  · unfold lengthField
    split_ifs <;> simp [MASK] <;> omega
  · unfold lengthField
    split_ifs <;> simp <;> omega

/-- C7: the outbound length field is the shortest representation (1 byte
for L < 126, 3 bytes for 126 ≤ L < 65536, 9 bytes for L ≥ 65536), and the
inbound frame-boundary parser decodes exactly L (together with the header
length implied by the MASK flag) from any frame starting with that field. -/
theorem length_encoding_shortest (L maskFlag b0 : Nat) (rest : List Nat)
    (hm : maskFlag = 0 ∨ maskFlag = MASK) (hL : L < 2 ^ 64) :
    (L < 126 → (lengthField L maskFlag).length = 1)
    ∧ (126 ≤ L → L < 65536 → (lengthField L maskFlag).length = 3)
    ∧ (65536 ≤ L → (lengthField L maskFlag).length = 9)
    ∧ headerInfo (b0 :: lengthField L maskFlag ++ rest) =
        some ((if L < 126 then 2 else if L < 65536 then 4 else 10) +
                (if maskFlag = MASK then 4 else 0), L) := by
  refine ⟨?_, ?_, ?_, ?_⟩
  · intro h
    simp [lengthField, h]
  · intro h1 h2
    simp [lengthField, Nat.not_lt.mpr h1, h2]
  · intro h
    simp [lengthField, Nat.not_lt.mpr (show 126 ≤ L by omega),
      Nat.not_lt.mpr (show 65536 ≤ L from h)]
  · rcases hm with hm | hm <;> subst hm <;>
      rcases Nat.lt_or_ge L 126 with h1 | h1
    · -- maskFlag = 0, 7-bit length
      have e2 : L &&& 127 = L := by
        rw [byteAnd127 L (by omega)]
        omega
      have e3 : L &&& 128 = 0 := by
        rw [byteAnd128 L (by omega), if_neg (by omega)]
      simp only [lengthField, if_pos h1, Nat.add_zero,
        Nat.mod_eq_of_lt (show L < 256 by omega)]
      simp [headerInfo, e2, e3, MASK, h1, show L ≠ 126 by omega, show L ≠ 127 by omega]
    · rcases Nat.lt_or_ge L 65536 with h2 | h2
      · -- maskFlag = 0, 16-bit length
        simp only [lengthField, if_neg (Nat.not_lt.mpr h1), if_pos h2, Nat.add_zero]
        simp [headerInfo, MASK, Nat.not_lt.mpr h1, h2, Nat.shiftRight_eq_div_pow,
          Nat.shiftLeft_eq, show (126 : Nat) &&& 127 = 126 from by decide,
          show (126 : Nat) &&& 128 = 0 from by decide,
          show ¬(rest.length + 1 + 1 + 1 + 1 < 4) from by omega]
        omega
      · -- maskFlag = 0, 64-bit length
        simp only [lengthField, if_neg (Nat.not_lt.mpr h1),
          if_neg (Nat.not_lt.mpr h2), Nat.add_zero]
        simp [headerInfo, MASK, Nat.not_lt.mpr h1, Nat.not_lt.mpr h2,
          Nat.shiftRight_eq_div_pow, Nat.shiftLeft_eq,
          show (127 : Nat) &&& 127 = 127 from by decide,
          show (127 : Nat) &&& 128 = 0 from by decide,
          show ¬(rest.length + 1 + 1 + 1 + 1 + 1 + 1 + 1 + 1 + 1 + 1 < 10) from by omega]
        omega
    · -- maskFlag = MASK, 7-bit length
      have e1 : (L + MASK) % 256 = L + 128 := by
        simp only [MASK]
        omega
      have e2 : (L + 128) &&& 127 = L := by
        rw [byteAnd127 (L + 128) (by omega)]
        omega
      have e3 : (L + 128) &&& 128 = 128 := by
        rw [byteAnd128 (L + 128) (by omega), if_pos (by omega)]
      simp only [lengthField, if_pos h1, e1]
      simp [headerInfo, e2, e3, MASK, h1, show L ≠ 126 by omega, show L ≠ 127 by omega]
    · rcases Nat.lt_or_ge L 65536 with h2 | h2
      · -- maskFlag = MASK, 16-bit length
        simp only [lengthField, if_neg (Nat.not_lt.mpr h1), if_pos h2]
        simp [headerInfo, MASK, Nat.not_lt.mpr h1, h2, Nat.shiftRight_eq_div_pow,
          Nat.shiftLeft_eq, show (254 : Nat) &&& 127 = 126 from by decide,
          show (254 : Nat) &&& 128 = 128 from by decide,
          show ¬(rest.length + 1 + 1 + 1 + 1 < 4) from by omega]
        omega
      · -- maskFlag = MASK, 64-bit length
        simp only [lengthField, if_neg (Nat.not_lt.mpr h1), if_neg (Nat.not_lt.mpr h2)]
        simp [headerInfo, MASK, Nat.not_lt.mpr h1, Nat.not_lt.mpr h2,
          Nat.shiftRight_eq_div_pow, Nat.shiftLeft_eq,
          show (255 : Nat) &&& 127 = 127 from by decide,
          show (255 : Nat) &&& 128 = 128 from by decide,
          show ¬(rest.length + 1 + 1 + 1 + 1 + 1 + 1 + 1 + 1 + 1 + 1 < 10) from by omega]
        omega

/-- Key bytes produced by the RNG model are bytes. -/
theorem keyByte_lt (mk : Nat → Nat) (j : Nat) : keyByte mk j < 256 :=
  Nat.mod_lt _ (by norm_num)

/-- XOR-masking a byte twice with the same key byte gives the byte back. -/
theorem xor_mask_cancel (p k : Nat) (hp : p < 256) (hk : k < 256) :
    ((p ^^^ k) % 256 ^^^ k) % 256 = p := by
  have h1 : p ^^^ k < 256 := Nat.xor_lt_two_pow (n := 8) hp hk
  rw [Nat.mod_eq_of_lt h1]
  have h2 : p ^^^ k ^^^ k = p := by simp [Nat.xor_assoc]
  rw [h2, Nat.mod_eq_of_lt hp]

/-- C8: the XOR masking transform is an involution (masking twice with the
same 4-byte key returns the original payload), and consequently the
server-side unmasking loop of `ReceiveFrame`, run over a frame produced by a
client-side `SendFrame`, recovers exactly the payload that was masked. -/
theorem masking_involution (mk : Nat → Nat) (payload : List Nat) (fin : Bool)
    (opcode : Nat) (hb : ∀ b ∈ payload, b < 256) :
    maskPayload mk (maskPayload mk payload) = payload
    ∧ serverUnmask (SendFrame Role.Client mk fin opcode payload)
        (2 + (if payload.length < 126 then 0 else if payload.length < 65536 then 2 else 8) + 4)
        payload.length = payload := by
  have hb' : ∀ i, i < payload.length → payload.getD i 0 < 256 := by
    intro i hi
    rw [List.getD_eq_getElem _ _ hi]
    exact hb _ (List.getElem_mem hi)
  have len1 : (maskPayload mk payload).length = payload.length := by
    simp [maskPayload]
  constructor
  · apply List.ext_getElem (by simp [maskPayload])
    intro i h1 h2
    simp only [maskPayload, len1, List.getElem_map, List.getElem_range]
    rw [getD_range_map _ _ _ h2, List.getD_eq_getElem _ _ h2]
    exact xor_mask_cancel _ _ (by rw [← List.getD_eq_getElem _ _ h2]; exact hb' i h2)
      (keyByte_lt mk _)
  · have hfr : SendFrame Role.Client mk fin opcode payload =
        (((if fin then FIN else 0) + opcode) % 256 :: lengthField payload.length MASK) ++
          ([keyByte mk 0, keyByte mk 1, keyByte mk 2, keyByte mk 3] ++
            maskPayload mk payload) := by
      simp [SendFrame, MASK]
    have hpre : (((if fin then FIN else 0) + opcode) % 256 ::
        lengthField payload.length MASK).length =
        2 + (if payload.length < 126 then 0 else if payload.length < 65536 then 2 else 8) := by
      unfold lengthField
      split_ifs <;> simp
    apply List.ext_getElem (by simp [serverUnmask])
    intro i h1 h2
    simp only [serverUnmask, List.getElem_map, List.getElem_range]
    rw [hfr]
    have e1 : 2 + (if payload.length < 126 then 0 else if payload.length < 65536 then 2 else 8)
        + 4 + i =
        (((if fin then FIN else 0) + opcode) % 256 ::
          lengthField payload.length MASK).length + (4 + i) := by
      rw [hpre]
      omega
    have e2 : 2 + (if payload.length < 126 then 0 else if payload.length < 65536 then 2 else 8)
        + 4 - 4 + i % 4 =
        (((if fin then FIN else 0) + opcode) % 256 ::
          lengthField payload.length MASK).length + i % 4 := by
      rw [hpre]
      omega
    rw [e1, getD_append_len, e2, getD_append_len]
    rw [List.getD_append_right _ _ _ _ (by simp : ([keyByte mk 0, keyByte mk 1, keyByte mk 2,
      keyByte mk 3] : List Nat).length ≤ 4 + i)]
    have e3 : 4 + i - ([keyByte mk 0, keyByte mk 1, keyByte mk 2,
        keyByte mk 3] : List Nat).length = i := by
      simp
    rw [e3]
    rw [List.getD_append _ _ _ _ (by simp; omega)]
    simp only [maskPayload]
    rw [getD_range_map _ _ _ h2, List.getD_eq_getElem _ _ h2]
    have hj : i % 4 = 0 ∨ i % 4 = 1 ∨ i % 4 = 2 ∨ i % 4 = 3 := by omega
    have hp : payload[i] < 256 := by
      rw [← List.getD_eq_getElem _ _ h2]
      exact hb' i h2
    rcases hj with hj | hj | hj | hj <;>
      rw [hj] <;>
      simp only [List.getD_cons_zero, List.getD_cons_succ] <;>
      exact xor_mask_cancel _ _ hp (keyByte_lt mk _)

/-- C9: the accept value the server computes and installs in its 101
response equals `Base64(SHA1(Base64(K) + GUID))` for the client's 16 random
key bytes K, and the client's `Sec-WebSocket-Accept` comparison in
`FinishOpenAsClient` (with the other response checks passing) accepts
exactly that server-computed value. -/
theorem handshake_accept_roundtrip (p : HandshakePrimitives) (nonce : List Nat)
    (req : ServerHandshakeRequest) (trailer : String) (r : ClientHandshakeResponse)
    (a : String)
    (hkey : req.secWebSocketKey = StartOpenAsClientKey p nonce)
    (hsrv : OpenAsServerAccept p req trailer = some a)
    (h101 : r.statusCode = 101) (hconn : r.connectionHasUpgradeToken = true)
    (hupg : r.upgradeValueLower = "websocket")
    (hext : r.secWebSocketExtensionsTokens = [])
    (hproto : r.secWebSocketProtocolTokens = []) :
    a = p.base64Encode (p.sha1 (p.base64Encode nonce ++ WEBSOCKET_KEY_SALT))
    ∧ (FinishOpenAsClientAccepts p (StartOpenAsClientKey p nonce) r = true ↔
        r.secWebSocketAccept = a) := by
  have ha : a = ComputeKeyAnswer p req.secWebSocketKey := by
    unfold OpenAsServerAccept at hsrv
    split_ifs at hsrv <;> simp_all
  rw [hkey] at ha
  constructor
  · exact ha
  · unfold FinishOpenAsClientAccepts
    rw [ha]
    simp [h101, hconn, hupg, hext, hproto]

/-- C1 (amended): completed close handshakes tear the transport down with
the following `clean` flags.  Order 1: a `Close` call that sets `closeSent`
while `closeReceived` already holds breaks the transport gracefully
(`Break` with `clean = true`) exactly on the normal path — `fail = false`
and code other than 1006; with `fail = true` the close frame is still sent
but the break is `Break(false)`, and with code 1006 no frame is sent and
the break is `Break(false)`.  Order 2: a close frame received while
`closeSent` already holds breaks the transport with `Break(false)` (not
gracefully) when its payload is shorter than 2 bytes or its reason is valid
UTF-8; when its reason is invalid UTF-8, the internal `Close(1007)` is a
no-op because `closeSent` holds, and the transport is not broken at all. -/
theorem close_teardown_both_orders (v : List Nat → Bool) (mk : Nat → Nat)
    (s t : Impl) (code : Nat) (reason data : List Nat) (fin fl : Bool) :
    (s.closeSent = false → s.closeReceived = true → code ≠ 1006 →
      Impl.Close mk s code reason false =
        ({ s with closeSent := true },
         [Output.sendData (SendFrame s.role mk true OPCODE_CLOSE
            (if code ≠ 1005 then (code >>> 8) % 256 :: code % 256 :: reason else [])),
          Output.breakTransport true]))
    ∧ (s.closeSent = false → s.closeReceived = true → code ≠ 1006 →
      (Impl.Close mk s code reason true).2 =
        [Output.sendData (SendFrame s.role mk true OPCODE_CLOSE
           (if code ≠ 1005 then (code >>> 8) % 256 :: code % 256 :: reason else [])),
         Output.breakTransport false])
    ∧ (s.closeSent = false → s.closeReceived = true →
      (Impl.Close mk s 1006 reason fl).2 = [Output.breakTransport false])
    ∧ (t.closeSent = true → (data.length < 2 ∨ v (data.drop 2) = true) →
      (Impl.HandleFrame v mk t fin OPCODE_CLOSE data).2 = [Output.breakTransport false])
    ∧ (t.closeSent = true → data.length ≥ 2 → v (data.drop 2) = false →
      Impl.HandleFrame v mk t fin OPCODE_CLOSE data = (t, [])) := by
  refine ⟨?_, ?_, ?_, ?_, ?_⟩
  · intro h1 h2 h3
    simp [Impl.Close, h1, h2, h3]
  · intro h1 h2 h3
    simp [Impl.Close, Impl.OnClose, h1, h2, h3]
  · intro h1 h2
    simp [Impl.Close, Impl.OnClose, h1]
  · intro h1 h2
    rcases h2 with h2 | h2
    · have hlen : ¬data.length ≥ 2 := by omega
      simp [Impl.HandleFrame, OPCODE_CLOSE, OPCODE_CONTINUATION, OPCODE_TEXT, OPCODE_BINARY,
        hlen, Impl.OnClose, h1]
    · by_cases hlen : data.length ≥ 2
      · simp [Impl.HandleFrame, OPCODE_CLOSE, OPCODE_CONTINUATION, OPCODE_TEXT, OPCODE_BINARY,
          hlen, h2, Impl.OnClose, h1]
      · simp [Impl.HandleFrame, OPCODE_CLOSE, OPCODE_CONTINUATION, OPCODE_TEXT, OPCODE_BINARY,
          hlen, Impl.OnClose, h1]
  · intro h1 hlen hv
    simp [Impl.HandleFrame, OPCODE_CLOSE, OPCODE_CONTINUATION, OPCODE_TEXT, OPCODE_BINARY,
      hlen, hv, Impl.Close, h1]

/-- C1 counterexample: the claim as stated is false at these concrete
inputs.  A complete masked empty close frame fed to a Server-role engine
with `closeSent = true` makes the engine call `Break` with `clean = false`,
and no `Break(true)` occurs; a received close frame whose reason fails
UTF-8 validation while `closeSent` holds breaks nothing at all; and a
`Close` call while `closeReceived` holds breaks with `clean = false` when
`fail = true` or when the code is 1006. -/
theorem close_after_closeSent_counterexample :
    (Impl.ReceiveData acceptAllUtf8 zeroRng { exampleState with closeSent := true }
        [0x88, 0x80, 0, 0, 0, 0]).2 = [Output.breakTransport false]
    ∧ Output.breakTransport true ∉
      (Impl.ReceiveData acceptAllUtf8 zeroRng { exampleState with closeSent := true }
        [0x88, 0x80, 0, 0, 0, 0]).2
    ∧ (Impl.HandleFrame rejectAllUtf8 zeroRng { exampleState with closeSent := true }
        true OPCODE_CLOSE [3, 232, 200]).2 = []
    ∧ (Impl.Close zeroRng { exampleState with closeReceived := true } 1000 [] true).2 =
      [Output.sendData (SendFrame Role.Server zeroRng true OPCODE_CLOSE [3, 232]),
       Output.breakTransport false]
    ∧ (Impl.Close zeroRng { exampleState with closeReceived := true } 1006 [] false).2 =
      [Output.breakTransport false] := by
  decide

/-- Witness: the C1 theorem at concrete states — a normal 1000 close while
`closeReceived` holds breaks with `clean = true`; the same close with
`fail = true`, and a 1006 close, break with `clean = false`; an empty close
frame handled while `closeSent` holds breaks with `clean = false`; and a
close frame with an invalid reason while `closeSent` holds is a no-op. -/
theorem close_teardown_witness :
    Impl.Close zeroRng { exampleState with closeReceived := true } 1000 [] false =
      ({ exampleState with closeReceived := true, closeSent := true },
       [Output.sendData (SendFrame Role.Server zeroRng true OPCODE_CLOSE [3, 232]),
        Output.breakTransport true])
    ∧ (Impl.Close zeroRng { exampleState with closeReceived := true } 1000 [] true).2 =
      [Output.sendData (SendFrame Role.Server zeroRng true OPCODE_CLOSE [3, 232]),
       Output.breakTransport false]
    ∧ (Impl.Close zeroRng { exampleState with closeReceived := true } 1006 [] false).2 =
      [Output.breakTransport false]
    ∧ (Impl.HandleFrame acceptAllUtf8 zeroRng { exampleState with closeSent := true }
        true OPCODE_CLOSE []).2 = [Output.breakTransport false]
    ∧ Impl.HandleFrame rejectAllUtf8 zeroRng { exampleState with closeSent := true }
        true OPCODE_CLOSE [3, 232, 200] = ({ exampleState with closeSent := true }, []) :=
  ⟨((close_teardown_both_orders acceptAllUtf8 zeroRng
        { exampleState with closeReceived := true } { exampleState with closeSent := true }
        1000 [] [] true false).1 rfl rfl (by decide)).trans (by decide),
   ((close_teardown_both_orders acceptAllUtf8 zeroRng
        { exampleState with closeReceived := true } { exampleState with closeSent := true }
        1000 [] [] true false).2.1 rfl rfl (by decide)).trans (by decide),
   (close_teardown_both_orders acceptAllUtf8 zeroRng
        { exampleState with closeReceived := true } { exampleState with closeSent := true }
        1000 [] [] true false).2.2.1 rfl rfl,
   (close_teardown_both_orders acceptAllUtf8 zeroRng
        { exampleState with closeReceived := true } { exampleState with closeSent := true }
        1000 [] [] true false).2.2.2.1 rfl (Or.inl (by decide)),
   (close_teardown_both_orders rejectAllUtf8 zeroRng
        { exampleState with closeReceived := true } { exampleState with closeSent := true }
        1000 [] [3, 232, 200] true false).2.2.2.2 rfl (by decide) rfl⟩

/-- Witness: the C2 theorem at concrete close payloads (empty; code 1000
with reason "hi"; an invalid reason; sending code 1005). -/
theorem close_payload_witness :
    (Impl.HandleFrame acceptAllUtf8 zeroRng exampleState true OPCODE_CLOSE []).1.eventQueue =
      [{ type := EventType.Close, content := [], closeCode := 1005 }]
    ∧ (Impl.HandleFrame acceptAllUtf8 zeroRng exampleState true OPCODE_CLOSE
        [3, 232, 104, 105]).1.eventQueue =
      [{ type := EventType.Close, content := [104, 105], closeCode := 1000 }]
    ∧ Impl.HandleFrame rejectAllUtf8 zeroRng exampleState true OPCODE_CLOSE [3, 232, 200] =
      Impl.Close zeroRng exampleState 1007 (strBytes "invalid UTF-8 encoding in close reason") true
    ∧ (Impl.Close zeroRng exampleState 1005 [] false).2.head? =
      some (Output.sendData (SendFrame exampleState.role zeroRng true OPCODE_CLOSE [])) :=
  ⟨((close_payload_semantics acceptAllUtf8 zeroRng exampleState true [] [] false).1).trans
      (by decide),
   ((close_payload_semantics acceptAllUtf8 zeroRng exampleState true [3, 232, 104, 105] []
        false).2.1 (by decide) (by decide) (by decide) rfl).trans (by decide),
   (close_payload_semantics rejectAllUtf8 zeroRng exampleState true [3, 232, 200] [] false).2.2.1
      (by decide) rfl,
   (close_payload_semantics acceptAllUtf8 zeroRng exampleState true [] [] false).2.2.2 rfl⟩

/-- Witness: the C3 theorem at a concrete state — a Text frame during an
in-progress Text message, and a Continuation frame with no message in
progress. -/
theorem message_assembler_witness :
    Impl.HandleFrame acceptAllUtf8 zeroRng
        { exampleState with receiving := FragmentedMessageType.Text } true OPCODE_TEXT [65] =
      Impl.Close zeroRng { exampleState with receiving := FragmentedMessageType.Text } 1002
        (strBytes "last message incomplete") true
    ∧ Impl.HandleFrame acceptAllUtf8 zeroRng exampleState false OPCODE_CONTINUATION [65] =
      Impl.Close zeroRng { exampleState with messageReassemblyBuffer := [] } 1002
        (strBytes "unexpected continuation frame") true :=
  ⟨((message_assembler_error_rows acceptAllUtf8 zeroRng
      { exampleState with receiving := FragmentedMessageType.Text } true [65]).1 (by decide)).1,
   (message_assembler_error_rows acceptAllUtf8 zeroRng exampleState false [65]).2 rfl⟩

/-- Witness: the C4 theorem at concrete messages — a valid "hi", an invalid
byte, a single-frame text, and a final continuation with the validator
rejecting the assembled payload. -/
theorem text_utf8_witness :
    Impl.OnTextMessage acceptAllUtf8 zeroRng exampleState [104, 105] =
      ({ exampleState with
          eventQueue := [{ type := EventType.Text, content := [104, 105], closeCode := 0 }] }, [])
    ∧ Impl.OnTextMessage rejectAllUtf8 zeroRng exampleState [200] =
      Impl.Close zeroRng exampleState 1007 (strBytes "invalid UTF-8 encoding in text message") true
    ∧ ((Impl.HandleFrame acceptAllUtf8 zeroRng exampleState true OPCODE_TEXT
        [104]).1.eventQueue.drop exampleState.eventQueue.length).any
        (fun e => e.type == EventType.Text) = acceptAllUtf8 [104]
    ∧ ((Impl.HandleFrame rejectAllUtf8 zeroRng
        { exampleState with
          receiving := FragmentedMessageType.Text,
          messageReassemblyBuffer := [104] }
        true OPCODE_CONTINUATION [105]).1.eventQueue.drop 0).any
        (fun e => e.type == EventType.Text) = rejectAllUtf8 [104, 105] :=
  ⟨((text_message_utf8_validation acceptAllUtf8 zeroRng exampleState [104, 105] []).1 rfl).trans
      (by decide),
   (text_message_utf8_validation rejectAllUtf8 zeroRng exampleState [200] []).2.1 rfl,
   (text_message_utf8_validation acceptAllUtf8 zeroRng exampleState [] [104]).2.2.1 rfl,
   ((text_message_utf8_validation rejectAllUtf8 zeroRng
      { exampleState with
        receiving := FragmentedMessageType.Text,
        messageReassemblyBuffer := [104] } [] [105]).2.2.2 rfl).1⟩

/-- Witness: the C5 theorem at a concrete state — cap 2, one buffered chunk
of three bytes. -/
theorem frame_size_cap_witness :
    Impl.ReceiveData acceptAllUtf8 zeroRng
        { exampleState with configuration := { maxFrameSize := 2 } } [1, 2, 3] =
      Impl.Close zeroRng { exampleState with configuration := { maxFrameSize := 2 } } 1009
        (strBytes "frame too large") true :=
  (frame_size_cap acceptAllUtf8 zeroRng
      { exampleState with configuration := { maxFrameSize := 2 } } [1, 2, 3]
      rfl (by decide) (by decide)).1

/-- Witness: the C7 theorem at concrete lengths 5, 300 and 70000, including
a decode of a masked 300-byte length field back to 300 with header length 8. -/
theorem length_encoding_witness :
    (lengthField 5 0).length = 1
    ∧ (lengthField 300 MASK).length = 3
    ∧ (lengthField 70000 0).length = 9
    ∧ headerInfo (129 :: lengthField 300 MASK ++ []) = some (8, 300) :=
  ⟨(length_encoding_shortest 5 0 0 [] (Or.inl rfl) (by decide)).1 (by decide),
   (length_encoding_shortest 300 MASK 0 [] (Or.inr rfl) (by decide)).2.1 (by decide) (by decide),
   (length_encoding_shortest 70000 0 0 [] (Or.inl rfl) (by decide)).2.2.1 (by decide),
   ((length_encoding_shortest 300 MASK 129 [] (Or.inr rfl) (by decide)).2.2.2).trans (by decide)⟩

/-- Witness: the C8 theorem on the payload "Hello" with the masking key
37 FA 21 3D. -/
theorem masking_involution_witness :
    maskPayload exampleRng (maskPayload exampleRng [72, 101, 108, 108, 111]) =
      [72, 101, 108, 108, 111]
    ∧ serverUnmask (SendFrame Role.Client exampleRng true OPCODE_TEXT [72, 101, 108, 108, 111])
        (2 + (if ([72, 101, 108, 108, 111] : List Nat).length < 126 then 0
              else if ([72, 101, 108, 108, 111] : List Nat).length < 65536 then 2 else 8) + 4)
        ([72, 101, 108, 108, 111] : List Nat).length = [72, 101, 108, 108, 111] :=
  ⟨(masking_involution exampleRng [72, 101, 108, 108, 111] true OPCODE_TEXT (by decide)).1,
   (masking_involution exampleRng [72, 101, 108, 108, 111] true OPCODE_TEXT (by decide)).2⟩

/-- Witness: the C9 theorem at the example primitives, nonce, request and
response — the client accepts the server-computed value. -/
theorem handshake_witness :
    FinishOpenAsClientAccepts examplePrimitives
      (StartOpenAsClientKey examplePrimitives [1, 2, 3]) exampleResponse = true :=
  ((handshake_accept_roundtrip examplePrimitives [1, 2, 3] exampleRequest "" exampleResponse
      (ComputeKeyAnswer examplePrimitives (StartOpenAsClientKey examplePrimitives [1, 2, 3]))
      rfl (by decide) rfl rfl rfl rfl rfl).2).mpr rfl

end WebSockets
